import Mathlib

/-!
Verification of the clock/reset domain topology and the
transceiver-to-packet-layer handoff of `ted_tfoil.py`
(LiteX SoC for the TED TFoil VU13P board).

The definitions below shallowly embed the structural content of the
source file: the `_CRG` class (clock domains, PLL reset wiring, the
asynchronous reset synchronizer on the free-running 125 MHz domain,
the false-path constraint) and the `BaseSoC._add_aurora` method (the
data-plane stream connections with their omit set, the control-plane
connection, and the wiring of the transceiver's `init_clk_locked`
input to the PLL lock signal).

Parts of the design that live in repository modules not present here
(the `cores.kyokko` transceiver core, the `cores.tf.framing` packet
core, and the library stream/reset primitives) are modelled from the
specification; each such definition carries a doc comment starting
with `Modelled from the spec:`.
-/

namespace TedTfoil

/-! ## Stream fields and connections -/

/-- A named stream field with a bit width. -/
structure Field where
  name  : String
  width : Nat
deriving DecidableEq, Repr

/-- The field vocabulary (layout) of one side of a stream endpoint. -/
abbrev Layout := List Field

/-- Modelled from the spec: the stream-connection primitive used by
`source.connect(sink, omit=...)` in `_add_aurora`.  The library code
realizing it (the litex/migen stream `connect`) is not part of the
sources here, so it is modelled from the spec's `PacketStreamConnection`
contract: every producer field whose name is not in the omit set must
find a sink field of identical name and width, otherwise the connection
is a build-time configuration error; fields in the omit set are never
transferred.  The result on success is the list of realized (actually
connected) field names, in producer layout order. -/
def connectFields : Layout → Layout → List String → Except String (List String)
  | [], _, _ => .ok []
  | f :: fs, snk, om =>
    match connectFields fs snk om with
    | .error e => .error e
    | .ok r =>
      if f.name ∈ om then .ok r
      else
        match snk.find? (fun g => g.name == f.name) with
        | some g =>
          if g.width == f.width then .ok (f.name :: r)
          else .error ("width mismatch on field " ++ f.name)
        | none => .error ("no matching sink field " ++ f.name)

/-- Modelled from the spec: the field vocabulary of the transceiver's
user-facing streams (`kyokko.source_user_rx` / `kyokko.sink_user_tx`,
defined in `cores.kyokko.aurora`, not under the sources here).  Per the
spec's external-interface section the data-plane vocabulary is
payload data, start-of-frame, end-of-frame, byte-valid, last-byte-enable,
error, source-port, destination-port, network-address and length; field
names follow the source (`last_be`, `error`, `src_port`, `dst_port`,
`ip_address`, `length`), the data width is the configured 256 bits. -/
def aurora_user_layout : Layout :=
  [⟨"data", 256⟩, ⟨"first", 1⟩, ⟨"last", 1⟩, ⟨"be", 32⟩,
   ⟨"last_be", 32⟩, ⟨"error", 1⟩, ⟨"src_port", 16⟩, ⟨"dst_port", 16⟩,
   ⟨"ip_address", 32⟩, ⟨"length", 16⟩]

/-- Modelled from the spec: the narrower field vocabulary of the packet
core's data-plane endpoints (`k2mm.sink_packet_rx` /
`k2mm.source_packet_tx`, defined in `cores.tf.framing`, not under the
sources here): payload data, start/end-of-frame and byte-valid only —
the routing/metadata fields of the transceiver vocabulary are absent. -/
def k2mm_packet_layout : Layout :=
  [⟨"data", 256⟩, ⟨"first", 1⟩, ⟨"last", 1⟩, ⟨"be", 32⟩]

/-- The omit set written at the two data-plane `connect` calls of
`_add_aurora` (source lines 145-146). -/
def aurora_omit : List String :=
  ["last_be", "error", "src_port", "dst_port", "ip_address", "length"]

/-- The realized field names of the receive-direction data-plane
connection `kyokko.source_user_rx.connect(k2mm.sink_packet_rx, omit=...)`. -/
def dataplane_rx_connection : Except String (List String) :=
  connectFields aurora_user_layout k2mm_packet_layout aurora_omit

/-- The realized field names of the transmit-direction data-plane
connection `k2mm.source_packet_tx.connect(kyokko.sink_user_tx, omit=...)`. -/
def dataplane_tx_connection : Except String (List String) :=
  connectFields k2mm_packet_layout aurora_user_layout aurora_omit

/-- Modelled from the spec: the control-packet vocabulary shared by the
control/test generator's egress (`k2mmctrl_0.source_ctrl`) and the
packet core's control ingress (`k2mm.sink_tester_ctrl`), both defined in
`cores.tf.framing`, not under the sources here.  The spec leaves it
opaque to this layer and identical on both ends by construction. -/
def ctrl_layout : Layout :=
  [⟨"data", 256⟩, ⟨"first", 1⟩, ⟨"last", 1⟩, ⟨"be", 32⟩, ⟨"length", 16⟩]

/-- The omit set of the control-plane `connect` call
(`k2mmctrl_0.source_ctrl.connect(k2mm.sink_tester_ctrl)`, source
line 149): the call passes no omit argument, so the omit set is empty. -/
def ctrl_omit : List String := []

/-- The realized field names of the control-plane connection. -/
def ctrl_connection : Except String (List String) :=
  connectFields ctrl_layout ctrl_layout ctrl_omit

/-- The packet core's data-plane ingress endpoint named at source
line 145. -/
def dataplane_rx_sink : String := "k2mm.sink_packet_rx"

/-- The packet core's control ingress endpoint named at source
line 149. -/
def ctrl_sink : String := "k2mm.sink_tester_ctrl"

/-! ## Clock and reset topology (`_CRG`) -/

/-- The combinational inputs of the `_CRG` reset/lock logic in one
evaluation: the active-low external reset pad `cpu_resetn`, the
internal soft-reset request `self.rst`, and the PLL's own `locked`
output. -/
structure CRGInputs where
  cpu_resetn : Bool
  soft_rst   : Bool
  pll_locked : Bool
deriving DecidableEq, Repr

/-- Source line 47: `self.locked.eq(pll.locked)` — the CRG's exported
lock signal is combinationally the PLL's lock output. -/
def crg_locked (i : CRGInputs) : Bool := i.pll_locked

/-- Source line 48:
`pll.reset.eq((~platform.request("cpu_resetn")) | self.rst)` — the
PLL reset input is the inverted active-low external request ORed with
the internal soft-reset request. -/
def pll_reset (i : CRGInputs) : Bool := (!i.cpu_resetn) || i.soft_rst

/-- Source line 144: `kyokko.init_clk_locked.eq(self.crg.locked)` —
the transceiver's initialization-clock-locked input is combinationally
the CRG lock signal. -/
def init_clk_locked (i : CRGInputs) : Bool := crg_locked i

/-- Source line 61: the asynchronous reset input fed to the
`AsyncResetSynchronizer` of the free-running `clk125` domain is the
inverse of the lock signal (`~self.locked`). -/
def clk125_rst_async (i : CRGInputs) : Bool := !(crg_locked i)

/-- State of the two-register asynchronous reset synchronizer: the
values held by its two flip-flops. -/
structure ARSState where
  r0 : Bool
  r1 : Bool
deriving DecidableEq, Repr

/-- Modelled from the spec: the `AsyncResetSynchronizer` primitive
instantiated at source line 61 (its implementation lives in the migen
library, not under the sources here).  Per the spec's ResetSequencer
contract (async-assert/sync-deassert) it is the classic two-flip-flop
chain whose registers are asynchronously preset while the reset input
is high; on a clock edge of the local domain with the input low, a
constant 0 shifts through the chain. -/
def arsStep (inp : Bool) (s : ARSState) : ARSState :=
  if inp then ⟨true, true⟩ else ⟨false, s.r0⟩

/-- Modelled from the spec: the synchronizer's output (the domain-local
reset) during one evaluation: while the asynchronous input is high the
output is forced high immediately (asynchronous preset path), otherwise
it is the value held by the last flip-flop. -/
def arsOut (inp : Bool) (s : ARSState) : Bool := inp || s.r1

/-- The free-running domain's reset in the current evaluation, given
the CRG inputs and the synchronizer state. -/
def clk125_rst (i : CRGInputs) (s : ARSState) : Bool :=
  arsOut (clk125_rst_async i) s

/-- Modelled from the spec: the transceiver's link-training state
machine (`cores.kyokko.aurora`, not under the sources here).  Per the
spec it is gated on the initialization-clock-locked input: it stays in
(or returns to) idle whenever that input is de-asserted, and training
begins only from idle with the input asserted. -/
inductive LinkState where
  | idle
  | training
  | up
deriving DecidableEq, Repr

/-- Modelled from the spec: one step of the link-training state machine,
gated on the `init_clk_locked` input. -/
def linkStep (locked : Bool) (s : LinkState) : LinkState :=
  if locked then
    match s with
    | .idle => .training
    | .training => .up
    | .up => .up
  else .idle

/-- A clock-domain declaration of `_CRG.__init__`: its name and whether
it was created reset-less. -/
structure ClockDomainDecl where
  name      : String
  resetLess : Bool
deriving DecidableEq, Repr

/-- The clock domains created at source lines 36-40: `sys`, `clk125`,
`sys4x` (reset-less), `pll4x` (reset-less) and `idelay`. -/
def crg_domains : List ClockDomainDecl :=
  [⟨"sys", false⟩, ⟨"clk125", false⟩, ⟨"sys4x", true⟩,
   ⟨"pll4x", true⟩, ⟨"idelay", false⟩]

/-- The reset sources driving each managed domain reset, as pairs
(domain name, driving mechanism).  The `clk125` entry is the
`AsyncResetSynchronizer` at source line 61.  The `sys` and `idelay`
entries are modelled from the spec: the delay-calibration controller
instantiated at source line 64 (`USIDELAYCTRL`, library code not under
the sources here) manages the system and calibration domain resets,
per the spec's description of the calibration domain ("with a managed
reset") and of the ResetSequencer covering every non-reset-less
domain. -/
def reset_sources : List (String × String) :=
  [("clk125", "AsyncResetSynchronizer"),
   ("sys", "USIDELAYCTRL"),
   ("idelay", "USIDELAYCTRL")]

/-- The number of reset sources attached to a named domain. -/
def resetSourceCount (d : String) : Nat :=
  (reset_sources.filter (fun p => p.1 == d)).length

/-! ## Clock frequencies -/

/-- Source line 44: `pll.create_clkout(self.cd_pll4x, sys_clk_freq*4)` —
the high-speed intermediate domain runs at four times the target system
frequency (frequencies in Hz as natural numbers; `sys_clk_freq` is an
integer in the source). -/
def pll4x_freq (F : Nat) : Nat := 4 * F

/-- Source line 55: the `BUFGCE_DIV` driving `cd_sys.clk` from
`cd_pll4x.clk` has parameter `BUFGCE_DIVIDE=4`. -/
def bufgce_divide : Nat := 4

/-- Source lines 54-56: the system clock is the `pll4x` clock divided
by the `BUFGCE_DIV` ratio. -/
def sys_freq (F : Nat) : Nat := pll4x_freq F / bufgce_divide

/-- Source lines 57-58: the `sys4x` domain is driven from the same
`pll4x` clock through a plain (non-dividing) `BUFGCE`. -/
def sys4x_freq (F : Nat) : Nat := pll4x_freq F

/-! ## Timing exceptions and lock-signal crossings -/

/-- The false-path (timing-exception) constraints declared by `_CRG`:
exactly the single call at source line 51,
`platform.add_false_path_constraints(self.cd_sys.clk, pll.clkin)`. -/
def false_path_constraints : List (String × String) :=
  [("cd_sys.clk", "pll.clkin")]

/-- The combinational assignments of the design's comb blocks
(source lines 46-49, 143-147 and 149), as (target, source-signals)
pairs; stream connections are summarized by their endpoint names. -/
def comb_assignments : List (String × List String) :=
  [("locked", ["pll.locked"]),
   ("pll.reset", ["cpu_resetn", "rst"]),
   ("kyokko.init_clk_locked", ["locked"]),
   ("k2mm.sink_packet_rx", ["kyokko.source_user_rx"]),
   ("kyokko.sink_user_tx", ["k2mm.source_packet_tx"]),
   ("k2mm.sink_tester_ctrl", ["k2mmctrl_0.source_ctrl"])]

/-- The mechanism by which a signal crosses into a foreign clock
domain. -/
inductive CrossingMechanism where
  | asyncResetSync
  | coreInternalSync
  | rawWire
deriving DecidableEq, Repr

/-- Whether a crossing mechanism synchronizes the signal into the
destination domain. -/
def isSynchronized : CrossingMechanism → Bool
  | .rawWire => false
  | _ => true

/-- The cross-clock-domain transfers of the lock signal.  The first is
the `AsyncResetSynchronizer` into `clk125` at source line 61.  The
second is modelled from the spec: `init_clk_locked` enters the
transceiver core (`cores.kyokko.aurora`, not under the sources here)
which, per the spec, always passes cross-domain data through a
domain-crossing synchronizer before sampling it in its free-running
domain. -/
def lock_crossings : List (String × CrossingMechanism) :=
  [("clk125.rst", .asyncResetSync),
   ("kyokko.init_clk_locked", .coreInternalSync)]

/-! ## Theorems -/

/-- C1: in both data-plane directions the omit set is exactly the six
fields last_be, error, src_port, dst_port, ip_address and length; the
realized field set of each connection equals the producer vocabulary
minus the omit set, and no omitted field occurs among the realized
fields (structural absence, not zeroing). -/
theorem C1_dataplane_omit_set :
    aurora_omit = ["last_be", "error", "src_port", "dst_port", "ip_address", "length"] ∧
    dataplane_rx_connection = .ok ["data", "first", "last", "be"] ∧
    dataplane_tx_connection = .ok ["data", "first", "last", "be"] ∧
    (aurora_user_layout.map Field.name).filter
      (fun n => !(aurora_omit.contains n)) = ["data", "first", "last", "be"] ∧
    (aurora_omit.all fun n => !(["data", "first", "last", "be"].contains n)) = true := by
  refine ⟨rfl, rfl, rfl, ?_, ?_⟩ <;> decide

/-- C2: the transceiver's initialization-clock-locked input equals the
PLL lock signal combinationally; whenever the lock signal is
de-asserted the link-training state machine is forced to idle, and a
step from idle into training is possible only with lock asserted. -/
theorem C2_transceiver_lock_gating (i : CRGInputs) (s : LinkState) :
    init_clk_locked i = i.pll_locked ∧
    (i.pll_locked = false → linkStep (init_clk_locked i) s = .idle) ∧
    (linkStep (init_clk_locked i) s = .training → i.pll_locked = true) := by
  refine ⟨rfl, ?_, ?_⟩
  · intro h
    simp [linkStep, init_clk_locked, crg_locked, h]
  · intro h
    by_contra hcon
    rw [Bool.not_eq_true] at hcon
    simp [linkStep, init_clk_locked, crg_locked, hcon] at h

/-- Witness for C2 at a concrete input: with lock low the training
state machine is held in idle even from the up state. -/
theorem C2_witness :
    linkStep (init_clk_locked ⟨true, false, false⟩) LinkState.up = .idle :=
  (C2_transceiver_lock_gating ⟨true, false, false⟩ .up).2.1 rfl

/-- C3: for every target frequency F the pll4x domain is configured at
exactly 4F, the division down to the system domain is exact (4F is
divisible by the divider 4 with no remainder, so the system frequency
is exactly F), and the sys4x domain runs at the full 4F rate. -/
theorem C3_exact_clock_ratios (F : Nat) :
    pll4x_freq F = 4 * F ∧
    bufgce_divide = 4 ∧
    sys_freq F = F ∧
    pll4x_freq F % bufgce_divide = 0 ∧
    sys4x_freq F = 4 * F := by
  refine ⟨rfl, rfl, ?_, ?_, rfl⟩
  · show 4 * F / 4 = F
    exact Nat.mul_div_cancel_left F (by norm_num)
  · show 4 * F % 4 = 0
    exact Nat.mul_mod_right 4 F

/-- C4: the free-running domain's reset asserts within the same
evaluation whenever lock is lost (for every synchronizer state), lock
loss saturates the synchronizer chain, and after lock re-asserts the
reset stays asserted through the first local clock edge and de-asserts
only at the second — async-assert/sync-deassert with N = 2 ≥ 1. -/
theorem C4_clk125_reset_discipline (i j : CRGInputs) (s : ARSState) :
    (crg_locked i = false → clk125_rst i s = true) ∧
    (crg_locked i = false → arsStep (clk125_rst_async i) s = ⟨true, true⟩) ∧
    (crg_locked j = true →
      clk125_rst j (arsStep (clk125_rst_async j) ⟨true, true⟩) = true) ∧
    (crg_locked j = true →
      clk125_rst j (arsStep (clk125_rst_async j)
        (arsStep (clk125_rst_async j) ⟨true, true⟩)) = false) := by
  refine ⟨?_, ?_, ?_, ?_⟩ <;> intro h <;>
    simp [clk125_rst, clk125_rst_async, arsOut, arsStep, crg_locked] at h ⊢ <;>
    simp [h]

/-- Witness for C4 at concrete inputs: reset asserted on lock loss,
and still asserted one local clock edge after lock returns. -/
theorem C4_witness :
    clk125_rst ⟨true, false, false⟩ ⟨false, false⟩ = true ∧
    clk125_rst ⟨true, false, true⟩
      (arsStep (clk125_rst_async ⟨true, false, true⟩) ⟨true, true⟩) = true :=
  ⟨(C4_clk125_reset_discipline ⟨true, false, false⟩ ⟨true, false, true⟩
      ⟨false, false⟩).1 rfl,
   (C4_clk125_reset_discipline ⟨true, false, false⟩ ⟨true, false, true⟩
      ⟨false, false⟩).2.2.1 rfl⟩

/-- C5: the PLL reset input equals the OR of the inverted active-low
external reset request and the internal soft-reset request, so it is
asserted whenever either request is. -/
theorem C5_pll_reset_or (i : CRGInputs) :
    pll_reset i = ((!i.cpu_resetn) || i.soft_rst) ∧
    (i.cpu_resetn = false ∨ i.soft_rst = true → pll_reset i = true) := by
  refine ⟨rfl, ?_⟩
  rintro (h | h) <;> simp [pll_reset, h]

/-- Witness for C5: external request asserted (pad low) holds the PLL
in reset. -/
theorem C5_witness : pll_reset ⟨false, false, true⟩ = true :=
  (C5_pll_reset_or ⟨false, false, true⟩).2 (Or.inl rfl)

/-- C6: every non-reset-less domain of the CRG has exactly one reset
source and every reset-less domain has none; pll4x and sys4x are the
reset-less domains. -/
theorem C6_reset_source_uniqueness :
    (crg_domains.all fun d =>
      if d.resetLess then resetSourceCount d.name == 0
      else resetSourceCount d.name == 1) = true ∧
    ClockDomainDecl.mk "pll4x" true ∈ crg_domains ∧
    ClockDomainDecl.mk "sys4x" true ∈ crg_domains ∧
    (crg_domains.filter (·.resetLess)).map ClockDomainDecl.name
      = ["sys4x", "pll4x"] := by
  refine ⟨?_, ?_, ?_, ?_⟩ <;> decide

/-- C7: a producer field outside the omit set whose width matches no
equally-named sink field makes the whole connection elaborate to a
configuration error — never to a realized connection. -/
theorem C7_mismatch_rejected (src snk : Layout) (om : List String) (f : Field)
    (hmem : f ∈ src) (hnot : f.name ∉ om)
    (hmis : ∀ g ∈ snk, g.name = f.name → g.width ≠ f.width) :
    ∃ e, connectFields src snk om = .error e := by
  induction src with
  | nil => exact absurd hmem (List.not_mem_nil f)
  | cons a as ih =>
    rcases List.mem_cons.mp hmem with heq | htail
    · subst heq
      cases hrec : connectFields as snk om with
      | error e => exact ⟨e, by simp [connectFields, hrec]⟩
      | ok r =>
        cases hfind : snk.find? (fun g => g.name == f.name) with
        | none =>
          exact ⟨"no matching sink field " ++ f.name,
            by simp [connectFields, hrec, hfind, hnot]⟩
        | some g =>
          have hgmem : g ∈ snk := List.mem_of_find?_eq_some hfind
          have hgname : g.name = f.name := by
            have hp := List.find?_some hfind
            simpa using hp
          have hgw : g.width ≠ f.width := hmis g hgmem hgname
          exact ⟨"width mismatch on field " ++ f.name,
            by simp [connectFields, hrec, hfind, hnot, hgw]⟩
    · rcases ih htail with ⟨e, he⟩
      exact ⟨e, by simp [connectFields, he]⟩

/-- Witness for C7: a 256-bit producer field meeting a 128-bit sink
field of the same name is rejected. -/
theorem C7_witness :
    ∃ e, connectFields [⟨"data", 256⟩] [⟨"data", 128⟩] [] = Except.error e :=
  C7_mismatch_rejected [⟨"data", 256⟩] [⟨"data", 128⟩] [] ⟨"data", 256⟩
    (by decide) (by decide) (by decide)

/-- C8: both cross-domain transfers of the lock signal go through a
synchronizing mechanism, and the clk125 synchronizer really registers
the signal: with the asynchronous input already low its output still
holds the previously latched reset for two local clock edges, which a
raw combinational sampling could not do. -/
theorem C8_lock_crossings_synchronized :
    (lock_crossings.all fun c => isSynchronized c.2) = true ∧
    arsOut false ⟨true, true⟩ = true ∧
    arsOut false (arsStep false ⟨true, true⟩) = true := by
  exact ⟨rfl, rfl, rfl⟩

/-- C9: the control-plane connection carries no omit set, realizes the
whole shared control vocabulary unchanged, and terminates at the packet
core's control ingress, which is distinct from the data-plane
ingress. -/
theorem C9_control_plane_independent :
    ctrl_omit = [] ∧
    ctrl_connection = .ok ["data", "first", "last", "be", "length"] ∧
    ctrl_layout.map Field.name = ["data", "first", "last", "be", "length"] ∧
    ctrl_sink ≠ dataplane_rx_sink := by
  refine ⟨rfl, rfl, ?_, ?_⟩ <;> decide

/-- C10: the design declares exactly one false-path timing exception,
between the system clock and the PLL input clock, and no combinational
assignment of the design drives the PLL input clock — the constrained
path is not a real causal data dependency. -/
theorem C10_false_path_unique :
    false_path_constraints = [("cd_sys.clk", "pll.clkin")] ∧
    false_path_constraints.length = 1 ∧
    (comb_assignments.all fun a => a.1 != "pll.clkin") = true := by
  exact ⟨rfl, rfl, rfl⟩

end TedTfoil
